import Mathlib

/-
Verification of the arniepye server lifecycle manager (arniepye/server.py).

The development shallowly embeds the four functions of server.py:

  * `run(port, path, forever, temp)` — the lifecycle orchestrator, embedded
    as `run` over an abstract trace of poll results, recording the effects
    (setup, spawn, terminate, teardown) in order together with the outcome;
  * `_pypiserver(port, path)` — embedded as the argument list it passes to
    `subprocess.Popen`;
  * `_setup(path, port)` — embedded as `setup` over an explicit filesystem
    state, together with the pure URL computation (`serverURL`) and the
    line-by-line bootstrap rendering (`renderLine` and `renderLines`);
  * `_teardown(path, remove)` — embedded as `teardown` over the same
    filesystem state.

String operations mirror the Python string methods the source uses
(`str.startswith`, `str.replace`) and are defined over the character data
so that they evaluate by kernel reduction.
-/

namespace ArniePye

/-! ### Python string primitives -/

/-- Python `line.startswith(pre)`: `pre` is a prefix of `line`. -/
def pyStartsWith (s pre : String) : Bool :=
  pre.data.isPrefixOf s.data

/-- Replace every leftmost non-overlapping occurrence of `old` by `new`,
scanning left to right, as Python `str.replace` does for a nonempty
pattern (the source's only pattern is the nonempty string "None"). -/
def replaceChars (old new : List Char) : List Char → List Char
  | [] => []
  | c :: rest =>
    if hne : old ≠ [] ∧ old.isPrefixOf (c :: rest) then
      new ++ replaceChars old new (List.drop old.length (c :: rest))
    else
      c :: replaceChars old new rest
termination_by s => s.length
decreasing_by
  · have h1 : 0 < old.length := List.length_pos.mpr hne.1
    simp only [List.length_drop, List.length_cons]
    omega
  · simp only [List.length_cons]
    omega

/-- Python `s.replace(old, new)` for a nonempty pattern `old`. -/
def pyReplace (s old new : String) : String :=
  String.mk (replaceChars old.data new.data s.data)

/-! ### URL computation (server.py, `_setup`, lines 63-64)

The source computes
  `port = '' if port == 80 else ':' + str(port)`
  `url = "'http://{0}{1}/simple/'".format(socket.getfqdn(), port)`.
The fully-qualified domain name is an abstract input here.  `quoteS` is the
single-quote character that the format string places around the URL. -/

/-- The single-quote character (code point 39) as a one-character string. -/
def quoteS : String :=
  String.mk [Char.ofNat 39]

/-- Python `'' if port == 80 else ':' + str(port)`. -/
def portSegment (port : Nat) : String :=
  if port = 80 then "" else ":" ++ toString port

/-- The quoted URL substituted into the bootstrap script. -/
def serverURL (fqdn : String) (port : Nat) : String :=
  quoteS ++ "http://" ++ fqdn ++ portSegment port ++ "/simple/" ++ quoteS

/-! ### Bootstrap rendering (server.py, `_setup`, lines 65-71)

The source reads the copied `bootstrap.py` line by line and writes each
line back, rewriting a line that starts with `SERVER_URL = None` by
replacing `None` with the computed URL. -/

/-- Body of the per-line loop of `_setup`. -/
def renderLine (url line : String) : String :=
  if pyStartsWith line "SERVER_URL = None" then pyReplace line "None" url
  else line

/-- The whole rendering pass over the lines of the bootstrap script. -/
def renderLines (url : String) (lines : List String) : List String :=
  lines.map (renderLine url)

/-! ### Process spawn arguments (server.py, `_pypiserver`, lines 43-48) -/

/-- The argument vector `_pypiserver` hands to `subprocess.Popen`:
`[sys.executable, '-m', 'pypiserver', '-p', str(port), '-P',
settings.HTACCESS, path]`. -/
def pypiserverArgs (executable : String) (port : Nat) (htaccess path : String) :
    List String :=
  [executable, "-m", "pypiserver", "-p", toString port, "-P", htaccess, path]

/-! ### Theorems on the URL shape and the spawn arguments -/

/-- C6: the computed server URL is the quoted string
`http://<fqdn><:port>/simple/`; when the port equals 80 the port segment
is omitted entirely, and for every other port the URL embeds `:<port>`. -/
theorem serverURL_port_shape (fqdn : String) (port : Nat) :
    (port = 80 →
      serverURL fqdn port = quoteS ++ "http://" ++ fqdn ++ "/simple/" ++ quoteS) ∧
    (port ≠ 80 →
      serverURL fqdn port =
        quoteS ++ "http://" ++ fqdn ++ (":" ++ toString port) ++ "/simple/" ++ quoteS) := by
  constructor
  · intro h
    simp [serverURL, portSegment, h]
  · intro h
    simp [serverURL, portSegment, h]

/-- Witness for C6 at the concrete ports 80 and 8080. -/
theorem serverURL_port_shape_witness :
    serverURL "arnie" 80 = quoteS ++ "http://" ++ "arnie" ++ "/simple/" ++ quoteS ∧
    serverURL "arnie" 8080 =
      quoteS ++ "http://" ++ "arnie" ++ (":" ++ toString 8080) ++ "/simple/" ++ quoteS :=
  ⟨(serverURL_port_shape "arnie" 80).1 rfl,
   (serverURL_port_shape "arnie" 8080).2 (by decide)⟩

/-- C9: after the executable self-reference and the module flag, the spawned
process receives exactly the port introduced by `-p`, the access-control
file path introduced by `-P`, and the repository path, and nothing else
(eight list entries in total). -/
theorem pypiserverArgs_exact (executable : String) (port : Nat) (htaccess path : String) :
    pypiserverArgs executable port htaccess path =
      [executable] ++ ["-m", "pypiserver"] ++
        ["-p", toString port] ++ ["-P", htaccess] ++ [path] ∧
    (pypiserverArgs executable port htaccess path).length = 8 :=
  ⟨rfl, rfl⟩

/-- C5: for a template with exactly one line starting with the placeholder
token `SERVER_URL = None`, rendering keeps the number and order of lines,
copies every other line through verbatim, and rewrites the placeholder
line by replacing `None` with the URL. -/
theorem renderLines_frame (url : String) (template : List String)
    (j : Fin template.length)
    (hpl : pyStartsWith (template.get j) "SERVER_URL = None" = true)
    (hothers : ∀ i : Fin template.length, i ≠ j →
      pyStartsWith (template.get i) "SERVER_URL = None" = false) :
    (renderLines url template).length = template.length ∧
    (∀ i : Fin template.length, i ≠ j →
      (renderLines url template)[(i : Nat)]? = some (template.get i)) ∧
    (renderLines url template)[(j : Nat)]? =
      some (pyReplace (template.get j) "None" url) := by
  refine ⟨by simp [renderLines], ?_, ?_⟩
  · intro i hij
    have hi : template[(i : Nat)]? = some (template.get i) := by
      simp [List.getElem?_eq_getElem i.isLt]
    have ho : pyStartsWith template[(i : Nat)] "SERVER_URL = None" = false := by
      simpa [List.get_eq_getElem] using hothers i hij
    simp [renderLines, List.getElem?_map, hi, renderLine, ho, List.get_eq_getElem]
  · have hj : template[(j : Nat)]? = some (template.get j) := by
      simp [List.getElem?_eq_getElem j.isLt]
    have hp : pyStartsWith template[(j : Nat)] "SERVER_URL = None" = true := by
      simpa [List.get_eq_getElem] using hpl
    simp [renderLines, List.getElem?_map, hj, renderLine, hp, List.get_eq_getElem]

/-- Witness for C5 on a three-line template whose middle line is the
placeholder. -/
theorem renderLines_frame_witness :
    (renderLines "U" ["AAA = 1", "SERVER_URL = None", "BBB = 2"]).length = 3 ∧
    (renderLines "U" ["AAA = 1", "SERVER_URL = None", "BBB = 2"])[1]? =
      some (pyReplace "SERVER_URL = None" "None" "U") := by
  have h := renderLines_frame "U" ["AAA = 1", "SERVER_URL = None", "BBB = 2"]
    ⟨1, by decide⟩ (by decide) (by decide)
  exact ⟨h.1, h.2.2⟩

/-! ### The lifecycle orchestrator (server.py, `run`, lines 19-40)

The source is

    _setup(path, port)                      -- before the try block
    process = _pypiserver(port, path)       -- before the try block
    try:
        while process.poll() is None and forever:
            pass
    except KeyboardInterrupt:
        return False
    finally:
        process.terminate()
        _teardown(path, remove=temp)
    return True

A single evaluation of `process.poll()` either reports the process alive
(`None`), reports it exited (a status), raises `KeyboardInterrupt`, or
raises some other exception; the embedding abstracts the child process as
the finite trace of those evaluations.  `run` records the side effects in
program order and the way control leaves the function. -/

/-- One evaluation of `process.poll()` inside the supervise loop. -/
inductive PollResult
  | alive
  | exited
  | interrupt
  | err
deriving DecidableEq

/-- How the supervise loop ends: the loop condition became false
(`completed`), `KeyboardInterrupt` was raised (`interrupted`), another
exception was raised (`errored`), or the trace ran out while the loop was
still spinning (`pending`). -/
inductive LoopOut
  | completed
  | interrupted
  | errored
  | pending
deriving DecidableEq

/-- The side effects `run` can perform, in program order. -/
inductive Action
  | setupAct
  | spawnAct
  | terminateAct
  | teardownAct
deriving DecidableEq

/-- How `run` returns to its caller. -/
inductive Outcome
  | retTrue
  | retFalse
  | setupError
  | pollError
  | pending
deriving DecidableEq

/-- The loop `while process.poll() is None and forever: pass`, paired with
the number of poll evaluations it consumed.  Python evaluates the poll
before the short-circuit on `forever`, so one poll happens even when
`forever` is false. -/
def pollLoop (forever : Bool) : List PollResult → LoopOut × Nat
  | [] => (LoopOut.pending, 0)
  | r :: rest =>
    match r with
    | PollResult.exited => (LoopOut.completed, 1)
    | PollResult.interrupt => (LoopOut.interrupted, 1)
    | PollResult.err => (LoopOut.errored, 1)
    | PollResult.alive =>
      if forever then
        let next := pollLoop forever rest
        (next.1, next.2 + 1)
      else
        (LoopOut.completed, 1)

/-- The observable result of one call to `run`. -/
structure RunResult where
  actions : List Action
  outcome : Outcome
  pollCount : Nat
deriving DecidableEq

/-- The orchestrator `run`.  `setupOk` is whether `_setup` returns
normally (it runs before the try block, so on failure nothing else
happens); on the paths that leave the try block, the `finally` clause
terminates the process and then runs `_teardown`, after which control
returns `True` (loop condition false), returns `False`
(`KeyboardInterrupt` caught), or re-raises the polling exception. -/
def run (setupOk forever : Bool) (polls : List PollResult) : RunResult :=
  if setupOk = false then
    { actions := [Action.setupAct], outcome := Outcome.setupError, pollCount := 0 }
  else
    let pre := [Action.setupAct, Action.spawnAct]
    let fin := [Action.terminateAct, Action.teardownAct]
    match pollLoop forever polls with
    | (LoopOut.pending, n) =>
      { actions := pre, outcome := Outcome.pending, pollCount := n }
    | (LoopOut.completed, n) =>
      { actions := pre ++ fin, outcome := Outcome.retTrue, pollCount := n }
    | (LoopOut.interrupted, n) =>
      { actions := pre ++ fin, outcome := Outcome.retFalse, pollCount := n }
    | (LoopOut.errored, n) =>
      { actions := pre ++ fin, outcome := Outcome.pollError, pollCount := n }

/-! ### Theorems on the orchestrator -/

/-- C1: a `KeyboardInterrupt` during polling makes `run` return `False`
rather than propagate; the child is still asked to terminate exactly once,
and teardown is applied after the termination request. -/
theorem run_interrupted (forever : Bool) (polls : List PollResult)
    (h : (pollLoop forever polls).1 = LoopOut.interrupted) :
    (run true forever polls).outcome = Outcome.retFalse ∧
    (run true forever polls).actions.count Action.terminateAct = 1 ∧
    (run true forever polls).actions.count Action.teardownAct = 1 ∧
    (run true forever polls).actions.indexOf Action.terminateAct <
      (run true forever polls).actions.indexOf Action.teardownAct := by
  rcases hpl : pollLoop forever polls with ⟨out, n⟩
  rw [hpl] at h
  simp only at h
  subst h
  simp [run, hpl]

/-- Witness for C1: the first poll raises `KeyboardInterrupt`. -/
theorem run_interrupted_witness :
    (run true true [PollResult.interrupt]).outcome = Outcome.retFalse ∧
    (run true true [PollResult.interrupt]).actions.count Action.terminateAct = 1 ∧
    (run true true [PollResult.interrupt]).actions.count Action.teardownAct = 1 ∧
    (run true true [PollResult.interrupt]).actions.indexOf Action.terminateAct <
      (run true true [PollResult.interrupt]).actions.indexOf Action.teardownAct :=
  run_interrupted true [PollResult.interrupt] (by decide)

/-- C3 as stated is false: `_setup` runs before the try/finally block, so
when setup raises, the error reaches the caller with no teardown attempt.
At the concrete input (setup fails, `forever = True`), the error
propagates and `teardownAct` never happens. -/
theorem run_setup_failure_counterexample :
    (run false true []).outcome = Outcome.setupError ∧
    Action.teardownAct ∉ (run false true []).actions := by
  decide

/-- C3 amended: if setup raises before the server process is spawned, the
error propagates to the caller and `run` performs no spawn, no
termination request, and no directory teardown. -/
theorem run_setup_failure_propagates (forever : Bool) (polls : List PollResult) :
    (run false forever polls).outcome = Outcome.setupError ∧
    (run false forever polls).actions = [Action.setupAct] :=
  ⟨rfl, rfl⟩

/-- C4: whenever a process was spawned and `run` exits (normal completion,
interruption, or an error raised during polling), the child is asked to
terminate exactly once, teardown runs exactly once, and the teardown
follows the termination request. -/
theorem run_terminate_once (setupOk forever : Bool) (polls : List PollResult)
    (hspawn : Action.spawnAct ∈ (run setupOk forever polls).actions)
    (hexit : (run setupOk forever polls).outcome ≠ Outcome.pending) :
    (run setupOk forever polls).actions.count Action.terminateAct = 1 ∧
    (run setupOk forever polls).actions.count Action.teardownAct = 1 ∧
    (run setupOk forever polls).actions.indexOf Action.terminateAct <
      (run setupOk forever polls).actions.indexOf Action.teardownAct := by
  cases setupOk with
  | false =>
    simp [run] at hspawn
  | true =>
    rcases hpl : pollLoop forever polls with ⟨out, n⟩
    cases out with
    | pending => simp [run, hpl] at hexit
    | completed => simp [run, hpl]
    | interrupted => simp [run, hpl]
    | errored => simp [run, hpl]

/-- Witness for C4: the child exits on the first poll. -/
theorem run_terminate_once_witness :
    (run true true [PollResult.exited]).actions.count Action.terminateAct = 1 ∧
    (run true true [PollResult.exited]).actions.count Action.teardownAct = 1 ∧
    (run true true [PollResult.exited]).actions.indexOf Action.terminateAct <
      (run true true [PollResult.exited]).actions.indexOf Action.teardownAct :=
  run_terminate_once true true [PollResult.exited] (by decide) (by decide)

/-- C7: with `forever = False`, `run` performs exactly one liveness check
(hence does not block), and returns `True` whatever that check reports,
as long as it reports rather than raises. -/
theorem run_selftest (p : PollResult) (rest : List PollResult)
    (h : p = PollResult.alive ∨ p = PollResult.exited) :
    (run true false (p :: rest)).outcome = Outcome.retTrue ∧
    (run true false (p :: rest)).pollCount ≤ 1 := by
  rcases h with h | h <;> subst h <;> exact ⟨rfl, Nat.le.refl⟩

/-- Witness for C7: the child is still alive at the single check. -/
theorem run_selftest_witness :
    (run true false [PollResult.alive]).outcome = Outcome.retTrue ∧
    (run true false [PollResult.alive]).pollCount ≤ 1 :=
  run_selftest PollResult.alive [] (Or.inl rfl)

/-- Helper: with `forever = True`, the loop consumes the leading `alive`
polls and stops at the first `exited` report. -/
theorem pollLoop_replicate_alive_exited (k : Nat) (rest : List PollResult) :
    pollLoop true (List.replicate k PollResult.alive ++ PollResult.exited :: rest) =
      (LoopOut.completed, k + 1) := by
  induction k with
  | zero => rfl
  | succ m ih =>
    rw [List.replicate_succ, List.cons_append]
    show ((pollLoop true (List.replicate m PollResult.alive ++ PollResult.exited :: rest)).1,
        (pollLoop true (List.replicate m PollResult.alive ++ PollResult.exited :: rest)).2 + 1) =
      (LoopOut.completed, m + 1 + 1)
    rw [ih]

/-- C8: with `forever = True`, if the liveness check reports the child
exited — on the first poll or any later one — `run` leaves the polling
loop and returns `True`: a self-terminating child is normal completion. -/
theorem run_natural_exit (k : Nat) (rest : List PollResult) :
    (run true true (List.replicate k PollResult.alive ++ PollResult.exited :: rest)).outcome =
      Outcome.retTrue ∧
    (run true true (List.replicate k PollResult.alive ++ PollResult.exited :: rest)).pollCount =
      k + 1 := by
  rw [run]
  rw [pollLoop_replicate_alive_exited k rest]
  exact ⟨rfl, rfl⟩

/-! ### The repository directory on disk (server.py, `_setup` and `_teardown`)

The filesystem state the two functions touch: whether the repository
directory exists, the contents of its `bootstrap` subdirectory (a mapping
from file name to lines, `none` when the subdirectory is absent), the
names of the other entries of the repository directory, and the
access-control file at its fixed location outside the directory. -/

/-- Contents of a directory: file name paired with the file's lines. -/
abbrev Files := List (String × List String)

/-- The filesystem state seen by `_setup` and `_teardown`. -/
structure FS where
  dirExists : Bool
  bootstrapDir : Option Files
  otherEntries : List String
  htaccessFile : Option (List String)
deriving DecidableEq

/-- Overwrite the contents of the file `name` (Python `open(..., 'w')` on
an existing file; the name set of the directory is unchanged). -/
def updateFile (name : String) (f : List String → List String) (files : Files) : Files :=
  files.map (fun p => if p.1 = name then (p.1, f p.2) else p)

/-- Remove the file `name` from a directory listing. -/
def removeFile (name : String) (files : Files) : Files :=
  files.filter (fun p => p.1 != name)

/-- The effects of one `_setup` call, in program order. -/
inductive SetupAction
  | mkdirAct
  | rmtreeAct
  | copytreeAct
  | moveAct
deriving DecidableEq

/-- Python `shutil.rmtree(bootstrap, ignore_errors=True)`: never raises.  -/
def rmtreeBootstrap (fs : FS) : FS :=
  { fs with bootstrapDir := none }

/-- Python `shutil.copytree(FILES, bootstrap)`: raises `FileExistsError`
when the destination already exists, otherwise copies the source tree. -/
def copytreeBootstrap (files : Files) (fs : FS) : Except String FS :=
  match fs.bootstrapDir with
  | some _ => Except.error "FileExistsError"
  | none => Except.ok { fs with bootstrapDir := some files }

/-- Python `open(bootstrap_py, 'r').readlines()`: raises when the
`bootstrap` directory or the script is missing. -/
def readBootstrapPy (fs : FS) : Except String (List String) :=
  match fs.bootstrapDir with
  | none => Except.error "FileNotFoundError"
  | some fl =>
    match fl.lookup "bootstrap.py" with
    | none => Except.error "FileNotFoundError"
    | some lines => Except.ok lines

/-- Writing the rendered lines back to `bootstrap/bootstrap.py`. -/
def writeBootstrapPy (lines : List String) (fs : FS) : FS :=
  { fs with bootstrapDir :=
      fs.bootstrapDir.map (updateFile "bootstrap.py" (fun _ => lines)) }

/-- Python `shutil.move(htaccess, settings.HTACCESS)`: raises when the
source is missing, otherwise removes it from `bootstrap` and overwrites
the access-control file at its fixed destination. -/
def moveHtaccess (fs : FS) : Except String FS :=
  match fs.bootstrapDir with
  | none => Except.error "FileNotFoundError"
  | some fl =>
    match fl.lookup "htaccess" with
    | none => Except.error "FileNotFoundError"
    | some content =>
      Except.ok { fs with bootstrapDir := some (removeFile "htaccess" fl),
                          htaccessFile := some content }

/-- The function `_setup(path, port)` of server.py over the filesystem
state: create the directory when absent, remove and re-copy the
`bootstrap` subdirectory from the fixed template tree `files`, rewrite the
placeholder line of `bootstrap.py` with the computed URL, move the
`htaccess` file to its fixed destination.  Returns the new state and the
effects performed, or the first error raised. -/
def setup (files : Files) (fqdn : String) (port : Nat) (fs0 : FS) :
    Except String (FS × List SetupAction) := do
  let start := if fs0.dirExists then (fs0, ([] : List SetupAction))
               else ({ fs0 with dirExists := true }, [SetupAction.mkdirAct])
  let fsA := rmtreeBootstrap start.1
  let fsB ← copytreeBootstrap files fsA
  let url := serverURL fqdn port
  let lines ← readBootstrapPy fsB
  let fsC := writeBootstrapPy (renderLines url lines) fsB
  let fsD ← moveHtaccess fsC
  return (fsD, start.2 ++ [SetupAction.rmtreeAct, SetupAction.copytreeAct, SetupAction.moveAct])

/-- Python `os.listdir(path)` on the repository directory. -/
def listdir (fs : FS) : List String :=
  (if fs.bootstrapDir.isSome then ["bootstrap"] else []) ++ fs.otherEntries

/-- Python `shutil.rmtree(path)` on the repository directory itself: the
directory and everything inside it is gone; the access-control file lives
outside it and stays. -/
def rmtreePath (fs : FS) : FS :=
  { fs with dirExists := false, bootstrapDir := none, otherEntries := [] }

/-- The function `_teardown(path, remove)` of server.py:
`if remove or len(os.listdir(path)) <= 1: shutil.rmtree(path)`. -/
def teardown (remove : Bool) (fs : FS) : FS :=
  if remove = true ∨ (listdir fs).length ≤ 1 then rmtreePath fs else fs

/-! ### Theorems on teardown -/

/-- A repository directory whose single entry is a stored package, with no
`bootstrap` subdirectory present. -/
def fsSinglePackage : FS :=
  { dirExists := true, bootstrapDir := none,
    otherEntries := ["pkg"], htaccessFile := none }

/-- C2 as stated is false: `_teardown` tests `len(os.listdir(path)) <= 1`
and never inspects the entry's name, so with `remove = False` a directory
whose only entry is a package (not `bootstrap`) is deleted, where the
claim requires it to be left untouched. -/
theorem teardown_counterexample :
    listdir fsSinglePackage = ["pkg"] ∧
    teardown false fsSinglePackage ≠ fsSinglePackage ∧
    (teardown false fsSinglePackage).dirExists = false := by
  refine ⟨rfl, ?_, rfl⟩
  intro h
  have : (teardown false fsSinglePackage).dirExists = fsSinglePackage.dirExists := by rw [h]
  simp [teardown, listdir, fsSinglePackage, rmtreePath] at this

/-- C2 amended: `_teardown` deletes the directory recursively exactly when
`remove` is true or the directory holds at most one entry — the entry's
name is not checked, so an empty directory or a sole non-bootstrap entry
is deleted too; whenever the `bootstrap` subdirectory is present, "at most
one entry" coincides with the only entry being `bootstrap`. -/
theorem teardown_removes_iff (remove : Bool) (fs : FS) :
    (remove = true ∨ (listdir fs).length ≤ 1 → teardown remove fs = rmtreePath fs) ∧
    (remove = false → 1 < (listdir fs).length → teardown remove fs = fs) ∧
    ("bootstrap" ∈ listdir fs →
      ((listdir fs).length ≤ 1 ↔ listdir fs = ["bootstrap"])) := by
  refine ⟨fun h => by simp [teardown, h], fun hr hl => ?_, fun hb => ?_⟩
  · have : ¬ (remove = true ∨ (listdir fs).length ≤ 1) := by
      rintro (h | h)
      · rw [hr] at h
        exact Bool.false_ne_true h
      · omega
    simp [teardown, this]
  · constructor
    · intro hl
      match hle : listdir fs, hl, hb with
      | [a], _, hbm =>
        have ha : a = "bootstrap" := by
          simp at hbm
          exact hbm.symm
        rw [ha]
    · intro h
      simp [h]

/-- Witness for C2 (amended): with `remove = False`, a directory whose only
entry is the `bootstrap` subdirectory is deleted. -/
theorem teardown_removes_iff_witness :
    teardown false { dirExists := true, bootstrapDir := some [],
                     otherEntries := [], htaccessFile := none } =
      rmtreePath { dirExists := true, bootstrapDir := some [],
                   otherEntries := [], htaccessFile := none } :=
  (teardown_removes_iff false _).1 (Or.inr (by decide))

/-! ### Theorems on setup -/

/-- Overwriting one file's contents leaves lookups of every other name
unchanged. -/
theorem lookup_updateFile (name m : String) (f : List String → List String) (files : Files)
    (h : m ≠ name) : (updateFile name f files).lookup m = files.lookup m := by
  induction files with
  | nil => rfl
  | cons p rest ih =>
    obtain ⟨k, v⟩ := p
    by_cases hp : k = name
    · subst hp
      have hk : (m == k) = false := by simp [h]
      simp [updateFile, List.lookup_cons, hk]
      simpa [updateFile] using ih
    · have hk2 : ((k, v) : String × List String).1 = name ↔ False := by simp [hp]
      simp [updateFile, List.lookup_cons, hk2]
      cases hk : m == k
      · simp only
        simpa [updateFile] using ih
      · simp only

/-- Closed form of `setup` when the template tree provides `bootstrap.py`
and `htaccess`: it succeeds from any starting state, creating the
directory exactly when it was absent, and leaves the freshly rendered
bootstrap tree. -/
theorem setup_eq (files : Files) (fqdn : String) (port : Nat) (fs0 : FS)
    (bp ht : List String)
    (hb : files.lookup "bootstrap.py" = some bp)
    (hh : files.lookup "htaccess" = some ht) :
    setup files fqdn port fs0 =
      Except.ok
        ({ dirExists := true,
           bootstrapDir := some (removeFile "htaccess"
             (updateFile "bootstrap.py"
               (fun _ => renderLines (serverURL fqdn port) bp) files)),
           otherEntries := fs0.otherEntries,
           htaccessFile := some ht },
         (if fs0.dirExists then [] else [SetupAction.mkdirAct]) ++
           [SetupAction.rmtreeAct, SetupAction.copytreeAct, SetupAction.moveAct]) := by
  have hne : ("htaccess" : String) ≠ "bootstrap.py" := by decide
  have hh2 : (updateFile "bootstrap.py"
      (fun _ => renderLines (serverURL fqdn port) bp) files).lookup "htaccess" = some ht := by
    rw [lookup_updateFile _ _ _ _ hne]
    exact hh
  cases hfd : fs0.dirExists <;>
    simp [setup, hfd, rmtreeBootstrap, copytreeBootstrap, readBootstrapPy, hb,
      writeBootstrapPy, moveHtaccess, hh2, Bind.bind, Except.bind,
      Functor.map, Except.map, Pure.pure, Except.pure]

/-- C10: setup is idempotent for the repository directory.  Both calls
succeed, the directory exists after each, the second call performs no
directory creation, and on every call the `bootstrap` subdirectory is
removed and then re-copied; the second call reproduces the first call's
state exactly. -/
theorem setup_idempotent (files : Files) (fqdn : String) (port : Nat) (fs0 : FS)
    (bp ht : List String)
    (hb : files.lookup "bootstrap.py" = some bp)
    (hh : files.lookup "htaccess" = some ht) :
    ∃ fs1 a1 fs2 a2,
      setup files fqdn port fs0 = Except.ok (fs1, a1) ∧
      setup files fqdn port fs1 = Except.ok (fs2, a2) ∧
      fs1.dirExists = true ∧ fs2.dirExists = true ∧
      SetupAction.rmtreeAct ∈ a1 ∧ SetupAction.copytreeAct ∈ a1 ∧
      SetupAction.mkdirAct ∉ a2 ∧
      a2 = [SetupAction.rmtreeAct, SetupAction.copytreeAct, SetupAction.moveAct] ∧
      fs2 = fs1 := by
  refine ⟨_, _, _, _, setup_eq files fqdn port fs0 bp ht hb hh,
    setup_eq files fqdn port _ bp ht hb hh, ?_, ?_, ?_, ?_, ?_, ?_, ?_⟩
  · rfl
  · rfl
  · cases fs0.dirExists <;> simp
  · cases fs0.dirExists <;> simp
  · simp
  · simp
  · rfl

/-- Witness for C10 on a two-file template tree and an initially absent
repository directory. -/
theorem setup_idempotent_witness :
    ∃ fs1 a1 fs2 a2,
      setup [("bootstrap.py", ["SERVER_URL = None"]), ("htaccess", [])] "arnie" 8080
          { dirExists := false, bootstrapDir := none,
            otherEntries := [], htaccessFile := none } =
        Except.ok (fs1, a1) ∧
      setup [("bootstrap.py", ["SERVER_URL = None"]), ("htaccess", [])] "arnie" 8080 fs1 =
        Except.ok (fs2, a2) ∧
      fs1.dirExists = true ∧ fs2.dirExists = true ∧
      SetupAction.rmtreeAct ∈ a1 ∧ SetupAction.copytreeAct ∈ a1 ∧
      SetupAction.mkdirAct ∉ a2 ∧
      a2 = [SetupAction.rmtreeAct, SetupAction.copytreeAct, SetupAction.moveAct] ∧
      fs2 = fs1 :=
  setup_idempotent [("bootstrap.py", ["SERVER_URL = None"]), ("htaccess", [])] "arnie" 8080
    { dirExists := false, bootstrapDir := none, otherEntries := [], htaccessFile := none }
    ["SERVER_URL = None"] [] (by decide) (by decide)

end ArniePye
